import Mathlib

/-!
Verification of the competitor-tracker pipeline (src/main.py, src/ai_analyzer.py,
src/integrations.py) against its specification.

The embedding models Python strings as Lean `String` (sequences of code points),
with the Python string primitives used by the source (`strip`, `startswith`,
`endswith`, slicing, `split`, `lower`, `in`) defined at the character-list
level.  JSON values (Python dicts produced by `json.loads` and by the source
itself) are modelled by the inductive type `Json`; Python dicts are association
lists with first-match lookup and replace-in-place assignment, matching dict
semantics for the duplicate-free dicts that arise here.  Fallible Python code
(statements that can raise) is modelled with `Except Unit`.  External library
calls (`json.loads`, the Gemini `generate_content` call, `requests.post`,
`datetime.fromisoformat`) are parameters of the embedded functions, so theorems
quantify over their behaviour.
-/

/-- JSON values, as produced by `json.loads` and manipulated by the source. -/
inductive Json where
  | null : Json
  | bool (b : Bool) : Json
  | num (n : Int) : Json
  | str (s : String) : Json
  | arr (xs : List Json) : Json
  | obj (fields : List (String × Json)) : Json

/-! ## Python string primitives (character-list semantics) -/

/-- Python `s.strip()`: remove leading and trailing whitespace. -/
def pyStrip (s : String) : String :=
  ⟨((s.data.dropWhile Char.isWhitespace).reverse.dropWhile Char.isWhitespace).reverse⟩

/-- Python `needle in hay` for strings: substring containment. -/
def pyIn (needle hay : String) : Bool :=
  hay.data.tails.any (fun t => needle.data.isPrefixOf t)

/-- Python `s.startswith(p)`. -/
def pyStartswith (s p : String) : Bool :=
  p.data.isPrefixOf s.data

/-- Python `s.endswith(p)`. -/
def pyEndswith (s p : String) : Bool :=
  p.data.isSuffixOf s.data

/-- Python `s[n:]` for `n ≥ 0`. -/
def pySliceFrom (s : String) (n : Nat) : String :=
  ⟨s.data.drop n⟩

/-- Python `s[:n]` for `n ≥ 0`. -/
def pySliceTo (s : String) (n : Nat) : String :=
  ⟨s.data.take n⟩

/-- Python `s[:-n]` for `n > 0`: all but the last `n` characters. -/
def pySliceDropEnd (s : String) (n : Nat) : String :=
  ⟨s.data.take (s.data.length - n)⟩

/-- Python `s.lower()` (ASCII case folding suffices for the source's uses). -/
def pyLower (s : String) : String :=
  ⟨s.data.map Char.toLower⟩

/-- Python `len(s)` for a string: number of code points. -/
def pyLen (s : String) : Nat :=
  s.data.length

/-- Split a character list at every occurrence of the character `c`. -/
def splitOnChar (c : Char) : List Char → List (List Char)
  | [] => [[]]
  | x :: xs =>
    if x = c then [] :: splitOnChar c xs
    else
      match splitOnChar c xs with
      | [] => [[x]]
      | h :: t => (x :: h) :: t

/-- Python `s.split(sep)` for the single-character separators used in the source. -/
def pySplit (s : String) (c : Char) : List String :=
  (splitOnChar c s.data).map (fun l => ⟨l⟩)

/-! ## Python dict operations on `Json` association lists -/

/-- First-match lookup in an association list. -/
def lookupField (k : String) : List (String × Json) → Option Json
  | [] => none
  | (k', v) :: rest => if k' = k then some v else lookupField k rest

/-- Whether an association list carries the key `k`. -/
def anyKeyB (fields : List (String × Json)) (k : String) : Bool :=
  fields.any (fun f => f.1 == k)

/-- Python `d[k] = v` on an association list: replace the first binding of `k`
in place, or append a new binding. -/
def dictSet (k : String) (v : Json) : List (String × Json) → List (String × Json)
  | [] => [(k, v)]
  | (k', v') :: rest =>
    if k' = k then (k, v) :: rest else (k', v') :: dictSet k v rest

/-- Python `d.setdefault(k, v)` on an association list. -/
def dictSetdefault (fields : List (String × Json)) (k : String) (v : Json) :
    List (String × Json) :=
  if anyKeyB fields k then fields else fields ++ [(k, v)]

/-- Lookup of key `k` when `j` is a dict; `none` otherwise. -/
def dictGet (j : Json) (k : String) : Option Json :=
  match j with
  | .obj fields => lookupField k fields
  | _ => none

/-- Whether `j` is a dict carrying the key `k`. -/
def hasKeyB (j : Json) (k : String) : Bool :=
  match j with
  | .obj fields => anyKeyB fields k
  | _ => false

/-- Python `k in j` for a string key `k`: key membership for dicts, substring
test for strings, element equality for lists; `TypeError` otherwise. -/
def pyContains (j : Json) (k : String) : Except Unit Bool :=
  match j with
  | .obj fields => .ok (anyKeyB fields k)
  | .str s => .ok (pyIn k s)
  | .arr xs => .ok (xs.any (fun x => match x with | .str t => t == k | _ => false))
  | _ => .error ()

/-- Python `j[k]` for a string key `k`: dict lookup (`KeyError` when absent),
`TypeError` on every non-dict value. -/
def pyGetItem (j : Json) (k : String) : Except Unit Json :=
  match j with
  | .obj fields =>
    match lookupField k fields with
    | some v => .ok v
    | none => .error ()
  | _ => .error ()

/-- Python `j[k] = v`: in-place dict assignment; `TypeError` on non-dicts
(including strings and lists, which reject string keys). -/
def pySetItem (j : Json) (k : String) (v : Json) : Except Unit Json :=
  match j with
  | .obj fields => .ok (.obj (dictSet k v fields))
  | _ => .error ()

/-- Python `j.setdefault(k, v)`: `AttributeError` on non-dicts. -/
def pySetdefault (j : Json) (k : String) (v : Json) : Except Unit Json :=
  match j with
  | .obj fields => .ok (.obj (dictSetdefault fields k v))
  | _ => .error ()

/-- Python `j.get(k, d)`: `AttributeError` on non-dicts. -/
def pyDictGetD (j : Json) (k : String) (d : Json) : Except Unit Json :=
  match j with
  | .obj fields =>
    match lookupField k fields with
    | some v => .ok v
    | none => .ok d
  | _ => .error ()

/-- Python truthiness of a JSON value. -/
def pyTruthy (j : Json) : Bool :=
  match j with
  | .null => false
  | .bool b => b
  | .num n => n != 0
  | .str s => s.data != []
  | .arr xs => !xs.isEmpty
  | .obj fields => !fields.isEmpty

/-! ## src/ai_analyzer.py -/

/-- Text of the analysis prompt before the interpolated update text
(`_build_analysis_prompt`, up to the f-string interpolation). -/
def analysisPromptHead : String :=
  "You are a competitive intelligence analyst. Analyze the following competitor updates and provide a structured summary.\n\nCOMPETITOR UPDATES:\n"

/-- Text of the analysis prompt after the interpolated update text
(`_build_analysis_prompt`; the doubled braces of the f-string denote literal
braces). -/
def analysisPromptTail : String :=
  "  \n\nPlease provide your analysis in the following JSON format:\n\n\x7b\n    \"summary\": \"A concise 2-3 sentence summary of the most important developments\",\n    \"categories\": \x7b\n        \"new_features\": [\n            \"List of new features or product updates mentioned\"\n        ],\n        \"pricing_changes\": [\n            \"List of any pricing updates, plans, or monetization changes\"\n        ],\n        \"messaging_updates\": [\n            \"List of branding, positioning, or marketing message changes\"\n        ]\n    \x7d,\n    \"key_insights\": [\n        \"List of 3-5 strategic insights or competitive implications\"\n    ],\n    \"threat_level\": \"low/medium/high - based on competitive threat\",\n    \"recommended_actions\": [\n        \"List of 2-3 recommended responses or actions\"\n    ]\n\x7d\n\nFocus on:\n1. New product features or capabilities\n2. Pricing strategy changes\n3. Market positioning shifts\n4. Competitive advantages or threats\n5. Customer experience improvements\n\nBe concise but comprehensive. If no significant updates are found, indicate that in the summary.\n\nIMPORTANT: Respond ONLY with valid JSON. No additional text or formatting."

/-- `GeminiAnalyzer._build_analysis_prompt`: the prompt embeds
`updates_text[:8000]` between the fixed head and tail. -/
def build_analysis_prompt (updates_text : String) : String :=
  analysisPromptHead ++ pySliceTo updates_text 8000 ++ analysisPromptTail

/-- The per-line test of `_extract_summary_fallback`:
`len(line) > 50 and ('update' in line.lower() or 'competitor' in line.lower())`. -/
def summaryLineHit (line : String) : Bool :=
  decide (50 < pyLen line) &&
    (pyIn "update" (pyLower line) || pyIn "competitor" (pyLower line))

/-- The scan loop of `_extract_summary_fallback`: strip each candidate line,
return the first stripped line passing `summaryLineHit`, truncated to 300. -/
def firstSummaryLine : List String → Option String
  | [] => none
  | l :: rest =>
    let t := pyStrip l
    if summaryLineHit t then some (pySliceTo t 300) else firstSummaryLine rest

/-- `GeminiAnalyzer._extract_summary_fallback`: scan the first 10 lines of the
raw response; fixed message when no line qualifies. -/
def extract_summary_fallback (text : String) : String :=
  match firstSummaryLine ((pySplit text '\n').take 10) with
  | some s => s
  | none => "Analysis completed but summary extraction failed."

/-- The `categories` dict with the three expected keys, each an empty list. -/
def threeEmptyCats : Json :=
  .obj [("new_features", .arr []), ("pricing_changes", .arr []),
        ("messaging_updates", .arr [])]

/-- `GeminiAnalyzer._extract_partial_analysis`: structured result used when JSON
parsing of the model response fails. -/
def extract_partial_analysis (response_text : String) : Json :=
  .obj [("summary", .str (extract_summary_fallback response_text)),
        ("categories", threeEmptyCats),
        ("key_insights", .arr []),
        ("threat_level", .str "medium"),
        ("recommended_actions", .arr [])]

/-- The cleaning pipeline at the top of `_parse_analysis_response`: strip,
drop a leading markdown fence tag written exactly ` ```json `, drop a trailing
` ``` `, strip again.  This is the text handed to `json.loads`. -/
def cleanedResponseText (response_text : String) : String :=
  let c0 := pyStrip response_text
  let c1 := if pyStartswith c0 "```json" then pySliceFrom c0 7 else c0
  let c2 := if pyEndswith c1 "```" then pySliceDropEnd c1 3 else c1
  pyStrip c2

/-- The required-keys check of `_parse_analysis_response`; a missing key raises
`ValueError`, a `TypeError` from the membership test also propagates. -/
def checkRequiredKeys (a : Json) : Except Unit Unit :=
  match pyContains a "summary" with
  | .error _ => .error ()
  | .ok false => .error ()
  | .ok true =>
    match pyContains a "categories" with
    | .error _ => .error ()
    | .ok false => .error ()
    | .ok true =>
      match pyContains a "key_insights" with
      | .error _ => .error ()
      | .ok false => .error ()
      | .ok true => .ok ()

/-- One step of the category back-fill loop:
`if cat_key not in categories: categories[cat_key] = []`. -/
def backfillOne (cat : Json) (k : String) : Except Unit Json :=
  match pyContains cat k with
  | .error _ => .error ()
  | .ok true => .ok cat
  | .ok false => pySetItem cat k (.arr [])

/-- The category back-fill loop over the three expected sub-keys. -/
def backfillCategories (cat : Json) : Except Unit Json :=
  match backfillOne cat "new_features" with
  | .error _ => .error ()
  | .ok c1 =>
    match backfillOne c1 "pricing_changes" with
    | .error _ => .error ()
    | .ok c2 => backfillOne c2 "messaging_updates"

/-- The two `setdefault` calls of `_parse_analysis_response`. -/
def setOptionalDefaults (a : Json) : Except Unit Json :=
  match pySetdefault a "threat_level" (.str "medium") with
  | .error _ => .error ()
  | .ok a1 => pySetdefault a1 "recommended_actions" (.arr [])

/-- The body of `_parse_analysis_response` after a successful `json.loads`:
validate the required keys, back-fill the category sub-keys (the Python code
mutates the dict obtained from `analysis['categories']`, modelled here by
writing the result back), and set the optional defaults.  Any raise other than
`json.JSONDecodeError` is re-raised (`.error`). -/
def processLoadedAnalysis (a : Json) : Except Unit Json :=
  match checkRequiredKeys a with
  | .error _ => .error ()
  | .ok _ =>
    match pyContains a "categories" with
    | .error _ => .error ()
    | .ok false => setOptionalDefaults a
    | .ok true =>
      match pyGetItem a "categories" with
      | .error _ => .error ()
      | .ok cat =>
        match backfillCategories cat with
        | .error _ => .error ()
        | .ok cat2 =>
          match pySetItem a "categories" cat2 with
          | .error _ => .error ()
          | .ok a2 => setOptionalDefaults a2

/-- `GeminiAnalyzer._parse_analysis_response`.  `json.loads` is a parameter
`loads`; `loads = none` is a `json.JSONDecodeError`, which routes to
`_extract_partial_analysis`; any later raise propagates as `.error`. -/
def parse_analysis_response (loads : String → Option Json)
    (response_text : String) : Except Unit Json :=
  match loads (cleanedResponseText response_text) with
  | none => .ok (extract_partial_analysis response_text)
  | some analysis => processLoadedAnalysis analysis

/-- The `Source:`-prefixed line count of `_get_fallback_analysis`. -/
def sourceLineCount (updates_text : String) : Nat :=
  ((pySplit updates_text '\n').filter (fun l => pyStartswith l "Source:")).length

/-- The fallback summary sentence, parameterized by the update count. -/
def fallbackSummaryText (n : Nat) : String :=
  "Collected " ++ toString n ++ " competitor updates this week. AI analysis temporarily unavailable - manual review recommended."

/-- `GeminiAnalyzer._get_fallback_analysis`. -/
def get_fallback_analysis (updates_text : String) : Json :=
  .obj [("summary", .str (fallbackSummaryText (sourceLineCount updates_text))),
        ("categories", threeEmptyCats),
        ("key_insights", .arr
          [.str "AI analysis failed - manual review needed",
           .str (toString (sourceLineCount updates_text) ++ " updates collected for review")]),
        ("threat_level", .str "medium"),
        ("recommended_actions", .arr
          [.str "Review collected updates manually",
           .str "Check AI service status and retry analysis"])]

/-- The body of one attempt of `analyze_updates`: `generate_content` either
raises (`outcome = none`) or yields `response.text`; an empty text raises
`ValueError`; otherwise the response is parsed, and a parse failure raises. -/
def attemptOutcomeResult (loads : String → Option Json) (outcome : Option String) :
    Except Unit Json :=
  match outcome with
  | none => .error ()
  | some txt =>
    if txt.data.isEmpty then .error () else parse_analysis_response loads txt

/-- The retry loop of `analyze_updates` over the attempt indices
`range(retry_count)`: a raise on a non-final attempt moves on (the backoff
sleep has no observable effect), a raise on the final attempt returns
`_get_fallback_analysis`; falling off the loop returns Python `None`. -/
def analyzeAttempts (loads : String → Option Json) (outcomes : Nat → Option String)
    (updates_text : String) (retry_count : Nat) : List Nat → Option Json
  | [] => none
  | attempt :: rest =>
    match attemptOutcomeResult loads (outcomes attempt) with
    | .ok a => some a
    | .error _ =>
      if attempt < retry_count - 1 then
        analyzeAttempts loads outcomes updates_text retry_count rest
      else some (get_fallback_analysis updates_text)

/-- `GeminiAnalyzer.analyze_updates`.  The model call is a parameter
`outcomes` giving each attempt's `generate_content` behaviour. -/
def analyze_updates (loads : String → Option Json) (outcomes : Nat → Option String)
    (updates_text : String) (retry_count : Nat) : Option Json :=
  analyzeAttempts loads outcomes updates_text retry_count (List.range retry_count)

/-- `analyze_updates` at the default `retry_count = 3`, as invoked by the
orchestrator; with at least one attempt the loop always returns a value. -/
def analyzerResult (loads : String → Option Json) (outcomes : Nat → Option String)
    (updates_text : String) : Json :=
  (analyze_updates loads outcomes updates_text 3).getD .null

/-! ## src/main.py data model and pipeline -/

/-- An update record as consumed by the filter and the formatter: the dict
fields read by `filter_recent_updates` and `_format_updates_for_analysis`,
each possibly absent. -/
structure Update where
  title : Option String
  content : Option String
  description : Option String
  date : Option String
  source : Option String

/-- A parsed `datetime.fromisoformat` result: a timestamp in seconds together
with whether the parsed value carries a UTC offset (is timezone-aware). -/
structure PyDateTime where
  aware : Bool
  stamp : Int

/-- Python `update_date > cutoff_date` where `cutoff_date` is naive
(`datetime.now() - timedelta(...)`): comparing an aware datetime with a naive
one raises `TypeError`. -/
def pyDatetimeGt (d : PyDateTime) (cutoff : Int) : Except Unit Bool :=
  if d.aware then .error () else .ok (decide (cutoff < d.stamp))

/-- `CompetitorAgent.filter_recent_updates`.  `fromisoformat` is a parameter
modelling `datetime.fromisoformat` (`none` = `ValueError`/`TypeError`); `now`
is `datetime.now()` in seconds; the cutoff is `now` minus `days` days.  The
loop appends an update when its date is within the window, and also on any
caught exception - from parsing or from the comparison itself. -/
def filter_recent_updates (fromisoformat : String → Option PyDateTime)
    (now : Int) (updates : List Update) (days : Int) : List Update :=
  let cutoff := now - days * 86400
  updates.foldl (fun acc u =>
    match fromisoformat (u.date.getD "") with
    | none => acc ++ [u]
    | some d =>
      match pyDatetimeGt d cutoff with
      | .error _ => acc ++ [u]
      | .ok true => acc ++ [u]
      | .ok false => acc) []

/-- One block of `_format_updates_for_analysis`. -/
def formatOneUpdate (u : Update) : String :=
  "Source: " ++ u.source.getD "Unknown" ++ "\nDate: " ++ u.date.getD "Unknown date" ++
    "\nTitle: " ++ u.title.getD "No title" ++ "\nContent: " ++
    (match u.content with
     | some c => c
     | none => u.description.getD "") ++ "\n---"

/-- `CompetitorAgent._format_updates_for_analysis`. -/
def format_updates_for_analysis (updates : List Update) : String :=
  String.intercalate "\n" (updates.map formatOneUpdate)

/-- The canned summary returned by `generate_summary` for an empty update
list. -/
def cannedZeroSummary : Json :=
  .obj [("summary", .str "No significant competitor updates found this week."),
        ("categories", threeEmptyCats),
        ("total_updates", .num 0)]

/-- `CompetitorAgent.generate_summary`.  `analyzeFn` stands for
`self.analyzer.analyze_updates`; the `summary['total_updates'] = len(updates)`
assignment raises if the analyzer result is not a dict. -/
def generate_summary (analyzeFn : String → Json) (updates : List Update) :
    Except Unit Json :=
  if updates.isEmpty then .ok cannedZeroSummary
  else
    pySetItem (analyzeFn (format_updates_for_analysis updates)) "total_updates"
      (.num updates.length)

/-! ## src/integrations.py -/

/-- The shared retry-loop shape of `SlackNotifier.send_message` and
`NotionUpdater.update_page`: each attempt's `requests` call is a parameter
giving either an HTTP status code or a raised exception; a 200 returns `True`
at once, anything else (non-200 status, or any caught exception, including one
raised while building the request body) falls through to the next attempt, and
the loop ends with `False`. -/
def webhookAttempts (call : Nat → Except Unit Int) : List Nat → Bool
  | [] => false
  | attempt :: rest =>
    match call attempt with
    | .ok code => if code = 200 then true else webhookAttempts call rest
    | .error _ => webhookAttempts call rest

/-- `SlackNotifier.send_message`.  The payload (message text and blocks) does
not influence control flow - only the response status is inspected - so the
webhook behaviour is the per-attempt parameter `webhook`.  Every exception in
an attempt body is caught, so the function only ever returns a boolean. -/
def send_message (webhook : Nat → Except Unit Int) (retry_count : Nat) : Bool :=
  webhookAttempts webhook (List.range retry_count)

/-- `NotionUpdater.update_page`, same retry contract as `send_message`. -/
def update_page (api : Nat → Except Unit Int) (retry_count : Nat) : Bool :=
  webhookAttempts api (List.range retry_count)

/-! ## Slack / Notion formatting and send_notifications (src/main.py) -/

/-- Python `str(value)` as used in the f-strings of `_format_slack_message`
(list and dict rendering is approximated; no claim inspects rendered text). -/
def pyStrVal : Json → String
  | .null => "None"
  | .bool true => "True"
  | .bool false => "False"
  | .num n => toString n
  | .str s => s
  | .arr _ => "[...]"
  | .obj _ => "\x7b...\x7d"

/-- Python `len(value)` for the values reachable in `_format_slack_message`:
sized collections only, `TypeError` otherwise. -/
def pyLenOf (j : Json) : Except Unit Nat :=
  match j with
  | .str s => .ok s.data.length
  | .arr xs => .ok xs.length
  | .obj fields => .ok fields.length
  | _ => .error ()

/-- Python `value[:5]` as iterated over in `_format_slack_message`: slices
lists, slices strings into their characters, raises `TypeError` on dicts and
scalars. -/
def pySliceToFive (j : Json) : Except Unit (List Json) :=
  match j with
  | .arr xs => .ok (xs.take 5)
  | .str s => .ok ((s.data.take 5).map (fun c => .str ⟨[c]⟩))
  | _ => .error ()

/-- One category block of `_format_slack_message`:
`if categories.get(key): header (len): bullets[:5]` plus the trailing blank
line (absent for the last category). -/
def catSection (cats : Json) (key header trail : String) : Except Unit String :=
  match pyDictGetD cats key .null with
  | .error _ => .error ()
  | .ok v =>
    if pyTruthy v then
      match pyGetItem cats key with
      | .error _ => .error ()
      | .ok v2 =>
        match pyLenOf v2 with
        | .error _ => .error ()
        | .ok n =>
          match pySliceToFive v2 with
          | .error _ => .error ()
          | .ok items =>
            .ok (header ++ " (" ++ toString n ++ "):\n" ++
              String.join (items.map (fun it => "• " ++ pyStrVal it ++ "\n")) ++ trail)
    else .ok ""

/-- `CompetitorAgent._format_slack_message`; `nowStamp` stands for the
formatted `datetime.now()`.  Raises (`.error`) exactly when one of the `.get`
calls or category blocks raises, e.g. when `summary` is not a dict or
`summary['categories']` is a scalar. -/
def format_slack_message (nowStamp : String) (summary : Json) :
    Except Unit String :=
  match pyDictGetD summary "total_updates" (.num 0) with
  | .error _ => .error ()
  | .ok tu =>
    match pyDictGetD summary "summary" (.str "No updates") with
    | .error _ => .error ()
    | .ok sm =>
      match pyDictGetD summary "categories" (.obj []) with
      | .error _ => .error ()
      | .ok cats =>
        match catSection cats "new_features" "🆕 **New Features**" "\n" with
        | .error _ => .error ()
        | .ok s1 =>
          match catSection cats "pricing_changes" "💰 **Pricing Changes**" "\n" with
          | .error _ => .error ()
          | .ok s2 =>
            match catSection cats "messaging_updates" "📢 **Messaging Updates**" "" with
            | .error _ => .error ()
            | .ok s3 =>
              .ok ("🔍 **Weekly Competitor Intelligence Report**\n\n📊 **Total Updates**: " ++
                pyStrVal tu ++ "\n\n📋 **Summary**:\n" ++ pyStrVal sm ++ "\n\n" ++
                s1 ++ s2 ++ s3 ++ "\n📅 Generated: " ++ nowStamp)

/-- `CompetitorAgent._format_notion_content`; `nowDate`/`nowIso` stand for the
two `datetime.now()` renderings. -/
def format_notion_content (nowDate nowIso : String) (summary : Json) :
    Except Unit Json :=
  match pyDictGetD summary "summary" (.str "") with
  | .error _ => .error ()
  | .ok sm =>
    match pyDictGetD summary "total_updates" (.num 0) with
    | .error _ => .error ()
    | .ok tu =>
      match pyDictGetD summary "categories" (.obj []) with
      | .error _ => .error ()
      | .ok cats =>
        .ok (.obj [("title", .str ("Competitor Intelligence - Week of " ++ nowDate)),
                   ("summary", sm),
                   ("total_updates", tu),
                   ("categories", cats),
                   ("generated_at", .str nowIso)])

/-- Which of the two notifier calls `send_notifications` reached, and their
boolean results when reached. -/
structure NotifyTrace where
  slackInvoked : Bool
  slackOk : Bool
  notionInvoked : Bool
  notionOk : Bool

/-- `CompetitorAgent.send_notifications`: one `try` block formats and sends
the Slack message, then formats and posts the Notion content; any raise is
caught and logged, abandoning the remaining steps.  `send_message` and
`update_page` never raise, so the only raises can come from the formatters. -/
def send_notifications (nowStamp nowDate nowIso : String)
    (webhook notionApi : Nat → Except Unit Int) (summary : Json) : NotifyTrace :=
  match format_slack_message nowStamp summary with
  | .error _ => ⟨false, false, false, false⟩
  | .ok _msg =>
    let ok1 := send_message webhook 3
    match format_notion_content nowDate nowIso summary with
    | .error _ => ⟨true, ok1, false, false⟩
    | .ok _content => ⟨true, ok1, true, update_page notionApi 3⟩

/-! ## Generic helpers for stating the claims -/

/-- Whether an `Except` computation returned normally. -/
def isOkB {α : Type} (e : Except Unit α) : Bool :=
  match e with
  | .ok _ => true
  | .error _ => false

/-- The text of the `summary` field of an analysis result (empty when absent
or not a string); used to compare results without deciding `Json` equality. -/
def summaryTextOf (r : Json) : String :=
  match dictGet r "summary" with
  | some (.str s) => s
  | _ => ""

/-- The shape every value returned by `_parse_analysis_response` has: a dict
with the three required keys and the two defaulted keys, whose `categories`
value, when itself a dict, carries the three category keys. -/
def AnalysisShape (j : Json) : Prop :=
  ∃ fields, j = .obj fields ∧
    anyKeyB fields "summary" = true ∧
    anyKeyB fields "categories" = true ∧
    anyKeyB fields "key_insights" = true ∧
    anyKeyB fields "threat_level" = true ∧
    anyKeyB fields "recommended_actions" = true ∧
    ∀ cf, lookupField "categories" fields = some (.obj cf) →
      anyKeyB cf "new_features" = true ∧ anyKeyB cf "pricing_changes" = true ∧
        anyKeyB cf "messaging_updates" = true

/-- The per-update predicate actually implemented by the body of
`filter_recent_updates`: keep on parse failure, keep on an aware datetime
(incomparable with the naive cutoff), otherwise keep exactly when strictly
inside the window. -/
def keepUpdateB (fromisoformat : String → Option PyDateTime) (cutoff : Int)
    (u : Update) : Bool :=
  match fromisoformat (u.date.getD "") with
  | none => true
  | some d =>
    match pyDatetimeGt d cutoff with
    | .error _ => true
    | .ok b => b

/-- Stated from the claim wording for C1 (not from the source): keep an update
exactly when its date fails to parse, or parses to a datetime strictly later
than the cutoff - with no provision for incomparable (timezone-aware)
datetimes. -/
def filterRecentClaimed (fromisoformat : String → Option PyDateTime)
    (now days : Int) (updates : List Update) : List Update :=
  updates.filter (fun u =>
    match fromisoformat (u.date.getD "") with
    | none => true
    | some d => decide (now - days * 86400 < d.stamp))

/-- Stated from the claim wording for C8 (not from the source): the first
qualifying line of the WHOLE raw text (no 10-line window), truncated to 300. -/
def claimedSalvageSummary (text : String) : Option String :=
  (((pySplit text '\n').map pyStrip).find? summaryLineHit).map
    (fun l => pySliceTo l 300)

/-- Stated from the claim wording for C2/C6: the result's `categories` value
is a dict carrying the three category keys, each bound to a list. -/
def categoriesThreeListsB (r : Json) : Bool :=
  match dictGet r "categories" with
  | some (.obj cf) =>
    (match lookupField "new_features" cf with
     | some (.arr _) => true
     | _ => false) &&
    (match lookupField "pricing_changes" cf with
     | some (.arr _) => true
     | _ => false) &&
    (match lookupField "messaging_updates" cf with
     | some (.arr _) => true
     | _ => false)
  | _ => false

/-- The amended C2 property: the `categories` key is always present, and
whenever its value is a dict it carries the three category keys. -/
def categoriesKeysOkB (r : Json) : Bool :=
  match dictGet r "categories" with
  | some (.obj cf) =>
    anyKeyB cf "new_features" && anyKeyB cf "pricing_changes" &&
      anyKeyB cf "messaging_updates"
  | some _ => true
  | none => false

/-- Whether `r` is a dict binding `k` to a string. -/
def isStrAt (r : Json) (k : String) : Bool :=
  match dictGet r k with
  | some (.str _) => true
  | _ => false

/-- Whether `r` is a dict binding `k` to a list. -/
def isArrAt (r : Json) (k : String) : Bool :=
  match dictGet r k with
  | some (.arr _) => true
  | _ => false

/-- Whether `r` is a dict binding `k` to a number. -/
def isNumAt (r : Json) (k : String) : Bool :=
  match dictGet r k with
  | some (.num _) => true
  | _ => false

/-- Whether `r` binds `threat_level` to one of the three allowed strings. -/
def threatLevelOkB (r : Json) : Bool :=
  match dictGet r "threat_level" with
  | some (.str s) => s == "low" || s == "medium" || s == "high"
  | _ => false

/-- Stated from the claim wording for C6 (the spec's Summary data model): a
free-text summary, the three category lists, a key-insights list, a threat
level among low/medium/high, a recommended-actions list and a count. -/
def summaryModelCheckB (r : Json) : Bool :=
  isStrAt r "summary" && categoriesThreeListsB r && isArrAt r "key_insights" &&
    threatLevelOkB r && isArrAt r "recommended_actions" && isNumAt r "total_updates"

/-! ## Concrete inputs used by witnesses and counterexamples -/

/-- A concrete `datetime.fromisoformat` table relative to a run at
`now = 0` (seconds): a naive date 8 days old, a naive date 1 day old, and a
timezone-aware timestamp years in the past; everything else fails to parse. -/
def demoDateParse : String → Option PyDateTime := fun s =>
  if s = "2026-10-04" then some ⟨false, -691200⟩
  else if s = "2026-10-11" then some ⟨false, -86400⟩
  else if s = "2020-01-01T00:00:00+00:00" then some ⟨true, -213321600⟩
  else none

/-- An update dated 8 days before the run. -/
def u8d : Update := ⟨none, none, none, some "2026-10-04", none⟩

/-- An update dated 1 day before the run. -/
def u1d : Update := ⟨none, none, none, some "2026-10-11", none⟩

/-- An update whose date does not parse. -/
def uBad : Update := ⟨none, none, none, some "not-a-date", none⟩

/-- An update with an old but timezone-aware ISO-8601 date: it parses, and the
comparison with the naive cutoff raises `TypeError`. -/
def uAware : Update := ⟨none, none, none, some "2020-01-01T00:00:00+00:00", none⟩

/-- A serialized JSON analysis missing two category sub-lists and both
optional fields. -/
def demoSerializedObj : String :=
  "\x7b\"summary\": \"All quiet\", \"categories\": \x7b\"new_features\": [\"X\"]\x7d, \"key_insights\": [\"Y\"]\x7d"

/-- The parse of `demoSerializedObj`. -/
def demoParsedObj : Json :=
  .obj [("summary", .str "All quiet"),
        ("categories", .obj [("new_features", .arr [.str "X"])]),
        ("key_insights", .arr [.str "Y"])]

/-- `demoParsedObj` after the parser's back-fills and defaults. -/
def demoBackfilledObj : Json :=
  .obj [("summary", .str "All quiet"),
        ("categories", .obj [("new_features", .arr [.str "X"]),
                             ("pricing_changes", .arr []),
                             ("messaging_updates", .arr [])]),
        ("key_insights", .arr [.str "Y"]),
        ("threat_level", .str "medium"),
        ("recommended_actions", .arr [])]

/-- A well-formed JSON response whose `categories` value is a STRING that
happens to contain the three category-key names as substrings, so every
`cat_key not in categories` test is false and the string passes through. -/
def pathologicalCategoriesText : String :=
  "\x7b\"summary\": \"ok\", \"categories\": \"mentions new_features and pricing_changes and messaging_updates\", \"key_insights\": []\x7d"

/-- The parse of `pathologicalCategoriesText`. -/
def pathologicalCategoriesJson : Json :=
  .obj [("summary", .str "ok"),
        ("categories", .str "mentions new_features and pricing_changes and messaging_updates"),
        ("key_insights", .arr [])]

/-- A concrete `json.loads` table covering the serialized texts above;
any other input is a `JSONDecodeError`. -/
def demoLoads : String → Option Json := fun s =>
  if s = demoSerializedObj then some demoParsedObj
  else if s = pathologicalCategoriesText then some pathologicalCategoriesJson
  else none

/-- The inner text used when fencing `demoSerializedObj`. -/
def demoFencedInner : String := "\n" ++ demoSerializedObj ++ "\n"

/-- `demoSerializedObj` wrapped in a markdown fence opened with plain ` ``` `
(no `json` tag). -/
def fencedPlainText : String := "```\n" ++ demoSerializedObj ++ "\n```"

/-- Ten short lines followed by an eleventh line that is over 50 characters
and mentions both `competitor` and `update`. -/
def tenShortLinesText : String :=
  "a\nb\nc\nd\ne\nf\ng\nh\ni\nj\nThis competitor update announcement line is certainly longer than fifty characters."

/-- A minimal well-formed summary dict for exercising the notifiers. -/
def demoSummaryJson : Json := .obj [("summary", .str "s")]

/-- The summary produced by a real run in which the model returned
`pathologicalCategoriesText` for one filtered update: `categories` is a
string, so the Slack formatter raises on `categories.get`. -/
def pathologicalSummary : Json :=
  .obj [("summary", .str "ok"),
        ("categories", .str "mentions new_features and pricing_changes and messaging_updates"),
        ("key_insights", .arr []),
        ("threat_level", .str "medium"),
        ("recommended_actions", .arr []),
        ("total_updates", .num 1)]

/-! ## Helper lemmas: association-list dictionaries -/

theorem strMk_data (s : String) : (⟨s.data⟩ : String) = s := by
  cases s
  rfl

theorem lookupField_dictSet_self (k : String) (v : Json) (fs : List (String × Json)) :
    lookupField k (dictSet k v fs) = some v := by
  induction fs with
  | nil => simp [dictSet, lookupField]
  | cons p rest ih =>
    obtain ⟨k', v'⟩ := p
    by_cases h : k' = k
    · simp [dictSet, h, lookupField]
    · simp [dictSet, h, lookupField, ih]

theorem anyKeyB_dictSet_self (k : String) (v : Json) (fs : List (String × Json)) :
    anyKeyB (dictSet k v fs) k = true := by
  induction fs with
  | nil => simp [dictSet, anyKeyB]
  | cons p rest ih =>
    obtain ⟨k', v'⟩ := p
    by_cases h : k' = k
    · simp [dictSet, h, anyKeyB]
    · simp only [dictSet, if_neg h, anyKeyB, List.any_cons]
      simp only [anyKeyB] at ih
      simp [ih]

theorem anyKeyB_dictSet_of (k k2 : String) (v : Json) (fs : List (String × Json))
    (h : anyKeyB fs k2 = true) : anyKeyB (dictSet k v fs) k2 = true := by
  induction fs with
  | nil => simp [anyKeyB] at h
  | cons p rest ih =>
    obtain ⟨k', v'⟩ := p
    simp only [anyKeyB, List.any_cons, Bool.or_eq_true, beq_iff_eq] at h
    by_cases hk : k' = k
    · rcases h with h | h
      · subst hk; subst h
        simp [dictSet, anyKeyB]
      · simp only [dictSet, if_pos hk, anyKeyB, List.any_cons, Bool.or_eq_true]
        right
        simpa [anyKeyB] using h
    · rcases h with h | h
      · subst h
        simp [dictSet, if_neg hk, anyKeyB]
      · simp only [dictSet, if_neg hk, anyKeyB, List.any_cons, Bool.or_eq_true]
        right
        simpa [anyKeyB] using ih (by simpa [anyKeyB] using h)

theorem lookupField_dictSet_ne (k k2 : String) (v : Json) (fs : List (String × Json))
    (h : k ≠ k2) : lookupField k2 (dictSet k v fs) = lookupField k2 fs := by
  induction fs with
  | nil => simp [dictSet, lookupField, h]
  | cons p rest ih =>
    obtain ⟨k', v'⟩ := p
    by_cases hk : k' = k
    · subst hk
      simp [dictSet, lookupField, h]
    · simp [dictSet, if_neg hk, lookupField, ih]

theorem lookupField_append_ne (k k2 : String) (v : Json) (fs : List (String × Json))
    (h : k ≠ k2) : lookupField k2 (fs ++ [(k, v)]) = lookupField k2 fs := by
  induction fs with
  | nil => simp [lookupField, h]
  | cons p rest ih =>
    obtain ⟨k', v'⟩ := p
    by_cases hk : k' = k2
    · simp [lookupField, hk]
    · simp [lookupField, hk, ih]

theorem anyKeyB_setdefault_self (k : String) (v : Json) (fs : List (String × Json)) :
    anyKeyB (dictSetdefault fs k v) k = true := by
  by_cases h : anyKeyB fs k = true
  · simp [dictSetdefault, h]
  · simp only [dictSetdefault]
    rw [if_neg h]
    simp [anyKeyB, List.any_append]

theorem anyKeyB_setdefault_of (k k2 : String) (v : Json) (fs : List (String × Json))
    (h : anyKeyB fs k2 = true) : anyKeyB (dictSetdefault fs k v) k2 = true := by
  by_cases hk : anyKeyB fs k = true
  · simpa [dictSetdefault, hk] using h
  · simp only [dictSetdefault]
    rw [if_neg hk]
    simp only [anyKeyB, List.any_append, Bool.or_eq_true]
    left
    simpa [anyKeyB] using h

theorem lookupField_setdefault_ne (k k2 : String) (v : Json) (fs : List (String × Json))
    (h : k ≠ k2) : lookupField k2 (dictSetdefault fs k v) = lookupField k2 fs := by
  by_cases hk : anyKeyB fs k = true
  · simp [dictSetdefault, hk]
  · simp only [dictSetdefault]
    rw [if_neg hk]
    exact lookupField_append_ne k k2 v fs h

theorem lookupField_isSome_of_anyKeyB (k : String) (fs : List (String × Json))
    (h : anyKeyB fs k = true) : ∃ v, lookupField k fs = some v := by
  induction fs with
  | nil => simp [anyKeyB] at h
  | cons p rest ih =>
    obtain ⟨k', v'⟩ := p
    simp only [anyKeyB, List.any_cons, Bool.or_eq_true, beq_iff_eq] at h
    by_cases hk : k' = k
    · exact ⟨v', by simp [lookupField, hk]⟩
    · rcases h with h | h
      · exact absurd h hk
      · obtain ⟨v, hv⟩ := ih (by simpa [anyKeyB] using h)
        exact ⟨v, by simp [lookupField, hk, hv]⟩

/-! ## Helper lemmas: shape of every parser result -/

theorem backfillOne_ok_obj (cf : List (String × Json)) (c : Json) (k : String)
    (h : backfillOne (.obj cf) k = .ok c) :
    ∃ cf2, c = .obj cf2 ∧ anyKeyB cf2 k = true ∧
      ∀ k2, anyKeyB cf k2 = true → anyKeyB cf2 k2 = true := by
  cases hk : anyKeyB cf k with
  | true =>
    simp only [backfillOne, pyContains, hk] at h
    exact ⟨cf, (Except.ok.inj h).symm, hk, fun k2 h2 => h2⟩
  | false =>
    simp only [backfillOne, pyContains, hk, pySetItem] at h
    exact ⟨dictSet k (.arr []) cf, (Except.ok.inj h).symm, anyKeyB_dictSet_self k _ cf,
      fun k2 h2 => anyKeyB_dictSet_of k k2 _ cf h2⟩

theorem backfillOne_ok_nonobj (cat c : Json) (k : String)
    (hno : ∀ cf, cat ≠ .obj cf) (h : backfillOne cat k = .ok c) : c = cat := by
  cases cat with
  | obj cf => exact absurd rfl (hno cf)
  | str s =>
    cases hk : pyIn k s with
    | true => simp only [backfillOne, pyContains, hk] at h; exact (Except.ok.inj h).symm
    | false => simp [backfillOne, pyContains, hk, pySetItem] at h
  | arr xs =>
    cases hk : xs.any (fun x => match x with | .str t => t == k | _ => false) with
    | true => simp only [backfillOne, pyContains, hk] at h; exact (Except.ok.inj h).symm
    | false => simp [backfillOne, pyContains, hk, pySetItem] at h
  | null => simp [backfillOne, pyContains] at h
  | bool b => simp [backfillOne, pyContains] at h
  | num n => simp [backfillOne, pyContains] at h

theorem backfillCategories_ok (cat c : Json) (h : backfillCategories cat = .ok c) :
    ∀ cf2, c = .obj cf2 →
      anyKeyB cf2 "new_features" = true ∧ anyKeyB cf2 "pricing_changes" = true ∧
        anyKeyB cf2 "messaging_updates" = true := by
  cases cat with
  | obj cf =>
    intro cf2 hc
    cases h1 : backfillOne (.obj cf) "new_features" with
    | error e => simp [backfillCategories, h1] at h
    | ok c1 =>
      obtain ⟨cf1, rfl, hnf1, hpres1⟩ := backfillOne_ok_obj cf c1 "new_features" h1
      cases h2 : backfillOne (.obj cf1) "pricing_changes" with
      | error e => simp [backfillCategories, h1, h2] at h
      | ok c2 =>
        obtain ⟨cfB, rfl, hpc2, hpres2⟩ := backfillOne_ok_obj cf1 c2 "pricing_changes" h2
        simp only [backfillCategories, h1, h2] at h
        obtain ⟨cfC, hc3, hmu3, hpres3⟩ := backfillOne_ok_obj cfB c "messaging_updates" h
        rw [hc] at hc3
        injection hc3 with hcf
        subst hcf
        exact ⟨hpres3 _ (hpres2 _ hnf1), hpres3 _ hpc2, hmu3⟩
  | str s =>
    intro cf2 hc
    cases h1 : backfillOne (.str s) "new_features" with
    | error e => simp [backfillCategories, h1] at h
    | ok c1 =>
      have e1 : c1 = .str s := backfillOne_ok_nonobj _ _ _ (by intro cf hh; cases hh) h1
      subst e1
      cases h2 : backfillOne (.str s) "pricing_changes" with
      | error e => simp [backfillCategories, h1, h2] at h
      | ok c2 =>
        have e2 : c2 = .str s := backfillOne_ok_nonobj _ _ _ (by intro cf hh; cases hh) h2
        subst e2
        simp only [backfillCategories, h1, h2] at h
        have e3 : c = .str s := backfillOne_ok_nonobj _ _ _ (by intro cf hh; cases hh) h
        rw [e3] at hc
        cases hc
  | arr xs =>
    intro cf2 hc
    cases h1 : backfillOne (.arr xs) "new_features" with
    | error e => simp [backfillCategories, h1] at h
    | ok c1 =>
      have e1 : c1 = .arr xs := backfillOne_ok_nonobj _ _ _ (by intro cf hh; cases hh) h1
      subst e1
      cases h2 : backfillOne (.arr xs) "pricing_changes" with
      | error e => simp [backfillCategories, h1, h2] at h
      | ok c2 =>
        have e2 : c2 = .arr xs := backfillOne_ok_nonobj _ _ _ (by intro cf hh; cases hh) h2
        subst e2
        simp only [backfillCategories, h1, h2] at h
        have e3 : c = .arr xs := backfillOne_ok_nonobj _ _ _ (by intro cf hh; cases hh) h
        rw [e3] at hc
        cases hc
  | null => simp [backfillCategories, backfillOne, pyContains] at h
  | bool b => simp [backfillCategories, backfillOne, pyContains] at h
  | num n => simp [backfillCategories, backfillOne, pyContains] at h

theorem checkRequiredKeys_ok_obj (fs : List (String × Json))
    (h : checkRequiredKeys (.obj fs) = .ok ()) :
    anyKeyB fs "summary" = true ∧ anyKeyB fs "categories" = true ∧
      anyKeyB fs "key_insights" = true := by
  cases h1 : anyKeyB fs "summary" <;> cases h2 : anyKeyB fs "categories" <;>
    cases h3 : anyKeyB fs "key_insights" <;>
    simp_all [checkRequiredKeys, pyContains]

theorem extract_partial_shape (t : String) : AnalysisShape (extract_partial_analysis t) := by
  refine ⟨_, rfl, rfl, rfl, rfl, rfl, rfl, ?_⟩
  intro cf hcf
  have e : lookupField "categories"
      [("summary", Json.str (extract_summary_fallback t)), ("categories", threeEmptyCats),
       ("key_insights", Json.arr []), ("threat_level", Json.str "medium"),
       ("recommended_actions", Json.arr [])] = some threeEmptyCats := rfl
  rw [e] at hcf
  have h2 : Json.obj [("new_features", Json.arr []), ("pricing_changes", Json.arr []),
      ("messaging_updates", Json.arr [])] = Json.obj cf := Option.some.inj hcf
  have h3 : [("new_features", Json.arr []), ("pricing_changes", Json.arr []),
      ("messaging_updates", Json.arr [])] = cf := by simpa using h2
  subst h3
  exact ⟨rfl, rfl, rfl⟩

theorem get_fallback_shape (t : String) : AnalysisShape (get_fallback_analysis t) := by
  refine ⟨_, rfl, rfl, rfl, rfl, rfl, rfl, ?_⟩
  intro cf hcf
  have e : lookupField "categories"
      [("summary", Json.str (fallbackSummaryText (sourceLineCount t))),
       ("categories", threeEmptyCats),
       ("key_insights", Json.arr
         [.str "AI analysis failed - manual review needed",
          .str (toString (sourceLineCount t) ++ " updates collected for review")]),
       ("threat_level", Json.str "medium"),
       ("recommended_actions", Json.arr
         [.str "Review collected updates manually",
          .str "Check AI service status and retry analysis"])] = some threeEmptyCats := rfl
  rw [e] at hcf
  have h2 : Json.obj [("new_features", Json.arr []), ("pricing_changes", Json.arr []),
      ("messaging_updates", Json.arr [])] = Json.obj cf := Option.some.inj hcf
  have h3 : [("new_features", Json.arr []), ("pricing_changes", Json.arr []),
      ("messaging_updates", Json.arr [])] = cf := by simpa using h2
  subst h3
  exact ⟨rfl, rfl, rfl⟩

theorem processLoaded_ok_shape (a j : Json) (h : processLoadedAnalysis a = .ok j) :
    AnalysisShape j := by
  cases a with
  | null => simp [processLoadedAnalysis, checkRequiredKeys, pyContains] at h
  | bool b => simp [processLoadedAnalysis, checkRequiredKeys, pyContains] at h
  | num n => simp [processLoadedAnalysis, checkRequiredKeys, pyContains] at h
  | str s =>
    cases h1 : pyIn "summary" s <;> cases h2 : pyIn "categories" s <;>
      cases h3 : pyIn "key_insights" s <;>
      simp_all [processLoadedAnalysis, checkRequiredKeys, pyContains, pyGetItem,
        setOptionalDefaults, pySetdefault]
  | arr xs =>
    cases h1 : xs.any (fun x => match x with | .str t => t == "summary" | _ => false) <;>
      cases h2 : xs.any (fun x => match x with | .str t => t == "categories" | _ => false) <;>
      cases h3 : xs.any (fun x => match x with | .str t => t == "key_insights" | _ => false) <;>
      simp_all [processLoadedAnalysis, checkRequiredKeys, pyContains, pyGetItem,
        setOptionalDefaults, pySetdefault]
  | obj fs =>
    cases hcr : checkRequiredKeys (.obj fs) with
    | error e => simp [processLoadedAnalysis, hcr] at h
    | ok u =>
      cases u
      obtain ⟨hs, hc, hk⟩ := checkRequiredKeys_ok_obj fs hcr
      obtain ⟨cat, hcat⟩ := lookupField_isSome_of_anyKeyB "categories" fs hc
      simp only [processLoadedAnalysis, hcr, pyContains, hc, pyGetItem, hcat] at h
      cases hbf : backfillCategories cat with
      | error e => simp [hbf] at h
      | ok cat2 =>
        simp only [hbf, pySetItem, setOptionalDefaults, pySetdefault] at h
        have hj := Except.ok.inj h
        subst hj
        refine ⟨_, rfl, ?_, ?_, ?_, ?_, ?_, ?_⟩
        · exact anyKeyB_setdefault_of _ _ _ _
            (anyKeyB_setdefault_of _ _ _ _ (anyKeyB_dictSet_of _ _ _ _ hs))
        · exact anyKeyB_setdefault_of _ _ _ _
            (anyKeyB_setdefault_of _ _ _ _ (anyKeyB_dictSet_self _ _ _))
        · exact anyKeyB_setdefault_of _ _ _ _
            (anyKeyB_setdefault_of _ _ _ _ (anyKeyB_dictSet_of _ _ _ _ hk))
        · exact anyKeyB_setdefault_of _ _ _ _ (anyKeyB_setdefault_self _ _ _)
        · exact anyKeyB_setdefault_self _ _ _
        · intro cf hcf
          rw [lookupField_setdefault_ne _ _ _ _ (by decide),
            lookupField_setdefault_ne _ _ _ _ (by decide),
            lookupField_dictSet_self] at hcf
          exact backfillCategories_ok cat cat2 hbf cf (Option.some.inj hcf)

theorem parse_ok_shape (loads : String → Option Json) (txt : String) (j : Json)
    (h : parse_analysis_response loads txt = .ok j) : AnalysisShape j := by
  unfold parse_analysis_response at h
  cases hl : loads (cleanedResponseText txt) with
  | none =>
    rw [hl] at h
    have hj := Except.ok.inj h
    rw [← hj]
    exact extract_partial_shape txt
  | some a =>
    rw [hl] at h
    exact processLoaded_ok_shape a j h

theorem attempt_ok_shape (loads : String → Option Json) (o : Option String) (j : Json)
    (h : attemptOutcomeResult loads o = .ok j) : AnalysisShape j := by
  cases o with
  | none => simp [attemptOutcomeResult] at h
  | some txt =>
    cases he : txt.data.isEmpty with
    | true => simp [attemptOutcomeResult, he] at h
    | false =>
      simp only [attemptOutcomeResult, he, Bool.false_eq_true, if_false] at h
      exact parse_ok_shape loads txt j h

theorem analyzerResult_shape (loads : String → Option Json) (outcomes : Nat → Option String)
    (text : String) : AnalysisShape (analyzerResult loads outcomes text) := by
  unfold analyzerResult analyze_updates
  rw [show List.range 3 = [0, 1, 2] from rfl]
  cases h0 : attemptOutcomeResult loads (outcomes 0) with
  | ok a =>
    simp only [analyzeAttempts, h0, Option.getD_some]
    exact attempt_ok_shape loads (outcomes 0) a h0
  | error e =>
    cases h1 : attemptOutcomeResult loads (outcomes 1) with
    | ok a =>
      simp [analyzeAttempts, h0, h1]
      exact attempt_ok_shape loads (outcomes 1) a h1
    | error e1 =>
      cases h2 : attemptOutcomeResult loads (outcomes 2) with
      | ok a =>
        simp [analyzeAttempts, h0, h1, h2]
        exact attempt_ok_shape loads (outcomes 2) a h2
      | error e2 =>
        simp [analyzeAttempts, h0, h1, h2]
        exact get_fallback_shape text

/-! ## Helper lemmas: loops, splitting, fence stripping -/

theorem foldl_append_filter {α : Type} (f : List α → α → List α) (q : α → Bool)
    (hf : ∀ acc u, f acc u = if q u then acc ++ [u] else acc) :
    ∀ (l acc : List α), l.foldl f acc = acc ++ l.filter q := by
  intro l
  induction l with
  | nil => intro acc; simp
  | cons u rest ih =>
    intro acc
    rw [List.foldl_cons, hf, List.filter_cons]
    cases hq : q u with
    | true => simp [ih]
    | false => simp [ih]

theorem splitOnChar_ne_nil (c : Char) (l : List Char) : splitOnChar c l ≠ [] := by
  induction l with
  | nil => simp [splitOnChar]
  | cons x xs ih =>
    by_cases h : x = c
    · simp [splitOnChar, h]
    · simp only [splitOnChar, if_neg h]
      cases hs : splitOnChar c xs with
      | nil => simp
      | cons a t => simp

theorem splitOnChar_append (c : Char) (a b : List Char) :
    splitOnChar c (a ++ c :: b) = splitOnChar c a ++ splitOnChar c b := by
  induction a with
  | nil => simp [splitOnChar]
  | cons x xs ih =>
    by_cases h : x = c
    · simp [splitOnChar, h, ih]
    · simp only [List.cons_append, splitOnChar, if_neg h, List.append_eq]
      rw [ih]
      cases hs : splitOnChar c xs with
      | nil => exact absurd hs (splitOnChar_ne_nil c xs)
      | cons hh tt => simp

theorem sourceLineCount_append_line (t : String) :
    sourceLineCount (t ++ "\nSource: extra") = sourceLineCount t + 1 := by
  unfold sourceLineCount pySplit
  rw [show (t ++ "\nSource: extra").data = t.data ++ '\n' :: "Source: extra".data from
    String.data_append t "\nSource: extra"]
  rw [splitOnChar_append, List.map_append, List.filter_append, List.length_append]
  congr 1

theorem firstSummaryLine_eq_find (ls : List String) :
    firstSummaryLine ls =
      ((ls.map pyStrip).find? summaryLineHit).map (fun l => pySliceTo l 300) := by
  induction ls with
  | nil => simp [firstSummaryLine]
  | cons l rest ih =>
    cases h : summaryLineHit (pyStrip l) with
    | true => simp [firstSummaryLine, h]
    | false => simp [firstSummaryLine, h, ih]

theorem pyStrip_guarded (cs : List Char) (cL cR : Char)
    (hL : cL.isWhitespace = false) (hR : cR.isWhitespace = false) :
    pyStrip ⟨cL :: cs ++ [cR]⟩ = ⟨cL :: cs ++ [cR]⟩ := by
  simp [pyStrip, List.dropWhile_cons, hL, hR, List.reverse_append]

theorem pyStartswith_append (p r : String) : pyStartswith ⟨p.data ++ r.data⟩ p = true := by
  simp [pyStartswith, List.isPrefixOf_iff_prefix]

theorem pyEndswith_append (p r : String) : pyEndswith ⟨r.data ++ p.data⟩ p = true := by
  simp [pyEndswith, List.isSuffixOf_iff_suffix]

theorem pySliceDropEnd_append (r : List Char) (p : String) :
    pySliceDropEnd ⟨r ++ p.data⟩ p.data.length = ⟨r⟩ := by
  apply String.ext
  simp only [pySliceDropEnd, List.length_append]
  rw [Nat.add_sub_cancel]
  exact List.take_left' rfl

theorem cleanedResponseText_fenced (s : String) :
    cleanedResponseText ("```json" ++ s ++ "```") = pyStrip s := by
  have hdata : ("```json" ++ s ++ "```").data = "```json".data ++ (s.data ++ "```".data) := by
    simp [List.append_assoc]
  have hshape : "```json".data ++ (s.data ++ "```".data)
      = '`' :: (('`' :: '`' :: 'j' :: 's' :: 'o' :: 'n' :: (s.data ++ ['`', '`'])) ++ ['`']) := by
    simp
  have hstrip : pyStrip ("```json" ++ s ++ "```") = ("```json" ++ s ++ "```") := by
    have := pyStrip_guarded ('`' :: '`' :: 'j' :: 's' :: 'o' :: 'n' :: (s.data ++ ['`', '`']))
      '`' '`' (by decide) (by decide)
    calc pyStrip ("```json" ++ s ++ "```")
        = pyStrip ⟨'`' :: (('`' :: '`' :: 'j' :: 's' :: 'o' :: 'n' :: (s.data ++ ['`', '`'])) ++ ['`'])⟩ := by
          rw [show ("```json" ++ s ++ "```") =
            ⟨'`' :: (('`' :: '`' :: 'j' :: 's' :: 'o' :: 'n' :: (s.data ++ ['`', '`'])) ++ ['`'])⟩ from
            String.ext (hdata.trans hshape)]
      _ = ⟨'`' :: (('`' :: '`' :: 'j' :: 's' :: 'o' :: 'n' :: (s.data ++ ['`', '`'])) ++ ['`'])⟩ := this
      _ = ("```json" ++ s ++ "```") := (String.ext (hdata.trans hshape)).symm
  have hstarts : pyStartswith ("```json" ++ s ++ "```") "```json" = true := by
    rw [show ("```json" ++ s ++ "```") = ⟨"```json".data ++ (s.data ++ "```".data)⟩ from
      String.ext hdata]
    exact pyStartswith_append "```json" ⟨s.data ++ "```".data⟩
  have hdrop : pySliceFrom ("```json" ++ s ++ "```") 7 = ⟨s.data ++ "```".data⟩ := by
    apply String.ext
    simp only [pySliceFrom, hdata]
    exact List.drop_left' rfl
  have hends : pyEndswith ⟨s.data ++ "```".data⟩ "```" = true := pyEndswith_append "```" s
  have hcut : pySliceDropEnd ⟨s.data ++ "```".data⟩ 3 = ⟨s.data⟩ := by
    have := pySliceDropEnd_append s.data "```"
    simpa using this
  simp only [cleanedResponseText, hstrip, hstarts, hdrop, hends, eq_self_iff_true,
    if_true, hcut, strMk_data]

theorem format_notion_content_ok (nowDate nowIso : String) (fields : List (String × Json)) :
    isOkB (format_notion_content nowDate nowIso (.obj fields)) = true := by
  unfold format_notion_content
  cases h1 : lookupField "summary" fields <;>
    cases h2 : lookupField "total_updates" fields <;>
    cases h3 : lookupField "categories" fields <;>
    simp [pyDictGetD, h1, h2, h3, isOkB]

/-! ## The claims -/

/-- C1 (amended).  `filter_recent_updates` keeps exactly the updates whose
`date` parses to a timezone-NAIVE datetime strictly later than `now` minus
`days` days, and additionally keeps every update whose date is missing, fails
to parse, or parses to a timezone-aware datetime (whose comparison with the
naive cutoff raises `TypeError`, which the loop catches by keeping the
update).  In particular, with a 7-day window, a naive date 8 days old is
excluded, one 1 day old is included, and an unparsable date is included. -/
theorem c1_filter_recent_updates :
    (∀ (fromisoformat : String → Option PyDateTime) (now days : Int)
      (updates : List Update),
      filter_recent_updates fromisoformat now updates days
        = updates.filter (keepUpdateB fromisoformat (now - days * 86400))) ∧
    filter_recent_updates demoDateParse 0 [u8d, u1d, uBad] 7 = [u1d, uBad] := by
  constructor
  · intro p now days updates
    have key : ∀ (o : Option PyDateTime) (acc : List Update) (u : Update),
        (match o with
         | none => acc ++ [u]
         | some d =>
           match pyDatetimeGt d (now - days * 86400) with
           | .error _ => acc ++ [u]
           | .ok true => acc ++ [u]
           | .ok false => acc)
          = if (match o with
                | none => true
                | some d =>
                  match pyDatetimeGt d (now - days * 86400) with
                  | .error _ => true
                  | .ok b => b) = true
            then acc ++ [u] else acc := by
      intro o acc u
      cases o with
      | none => simp
      | some d =>
        cases hd : pyDatetimeGt d (now - days * 86400) with
        | error e => simp [hd]
        | ok b => cases b <;> simp [hd]
    simp only [filter_recent_updates]
    rw [foldl_append_filter _ (keepUpdateB p (now - days * 86400))
      (fun acc u => key (p (u.date.getD "")) acc u) updates []]
    simp
  · rfl

/-- C1 counterexample.  An update dated `2020-01-01T00:00:00+00:00` parses
successfully to a timezone-aware datetime far older than the 7-day cutoff, so
the claim as stated (keep exactly the in-window dates plus parse failures)
excludes it; the code keeps it, because the aware/naive comparison raises
`TypeError` which the loop catches by including the update. -/
theorem c1_counterexample :
    filter_recent_updates demoDateParse 0 [uAware] 7 = [uAware] ∧
    filterRecentClaimed demoDateParse 0 7 [uAware] = [] ∧
    ([uAware] : List Update) ≠ [] :=
  ⟨rfl, rfl, by simp⟩

/-- C2 (amended).  For every model behaviour (any `json.loads` result on any
attempt, including exceptions on every attempt), the result of
`analyze_updates` always carries the `categories` key, and whenever its value
is a dict it carries all three keys `new_features`, `pricing_changes`,
`messaging_updates`.  (A model response whose `categories` value is a string
or list containing the three key names passes through unchanged, so the value
is not always a dict of three lists - see the counterexample.) -/
theorem c2_categories_keys :
    ∀ (loads : String → Option Json) (outcomes : Nat → Option String) (text : String),
      hasKeyB (analyzerResult loads outcomes text) "categories" = true ∧
      categoriesKeysOkB (analyzerResult loads outcomes text) = true := by
  intro loads outcomes text
  obtain ⟨fields, heq, hs, hc, hk, ht, hr, hcat⟩ := analyzerResult_shape loads outcomes text
  rw [heq]
  obtain ⟨cat, hlook⟩ := lookupField_isSome_of_anyKeyB "categories" fields hc
  refine ⟨hc, ?_⟩
  unfold categoriesKeysOkB
  rw [show dictGet (Json.obj fields) "categories" = lookupField "categories" fields from rfl,
    hlook]
  cases cat with
  | obj cf =>
    obtain ⟨h1, h2, h3⟩ := hcat cf hlook
    simp [h1, h2, h3]
  | null => rfl
  | bool b => rfl
  | num n => rfl
  | str s2 => rfl
  | arr xs => rfl

/-- C2 counterexample.  A well-formed JSON response whose `categories` value
is the STRING `"mentions new_features and pricing_changes and
messaging_updates"` passes validation (every `cat_key not in categories`
substring test is false) and is returned with `categories` still a string, so
the claim that the returned `categories` value always contains the three keys
each bound to a list is false. -/
theorem c2_counterexample :
    dictGet (analyzerResult demoLoads (fun _ => some pathologicalCategoriesText) "input")
        "categories"
      = some (.str "mentions new_features and pricing_changes and messaging_updates") ∧
    categoriesThreeListsB
      (analyzerResult demoLoads (fun _ => some pathologicalCategoriesText) "input") = false :=
  ⟨rfl, rfl⟩

/-- C3.  When every one of the 3 attempts of `analyze_updates` raises, the
result is exactly `_get_fallback_analysis` of the input: its `summary` string
cites the number of input lines starting with `Source:`, and its
`key_insights` contains the manual-review entry. -/
theorem c3_fallback_counts :
    ∀ (loads : String → Option Json) (text : String),
      analyze_updates loads (fun _ => none) text 3 = some (get_fallback_analysis text) ∧
      dictGet (get_fallback_analysis text) "summary"
        = some (.str (fallbackSummaryText (sourceLineCount text))) ∧
      fallbackSummaryText (sourceLineCount text)
        = "Collected " ++ toString (sourceLineCount text) ++
            " competitor updates this week. AI analysis temporarily unavailable - manual review recommended." ∧
      ∃ insights,
        dictGet (get_fallback_analysis text) "key_insights" = some (.arr insights) ∧
          Json.str "AI analysis failed - manual review needed" ∈ insights := by
  intro loads text
  exact ⟨rfl, rfl, rfl, ⟨_, rfl, List.mem_cons_self _ _⟩⟩

/-- C4.  If the webhook POST yields HTTP 500 on all 3 attempts,
`send_message` returns `False`; no exception escapes (the model is a total
boolean-valued function because every exception in an attempt body is
caught). -/
theorem c4_send_message_false :
    ∀ webhook : Nat → Except Unit Int,
      webhook 0 = .ok 500 → webhook 1 = .ok 500 → webhook 2 = .ok 500 →
      send_message webhook 3 = false := by
  intro w h0 h1 h2
  unfold send_message
  rw [show List.range 3 = [0, 1, 2] from rfl]
  simp [webhookAttempts, h0, h1, h2]

/-- C4 witness: the all-500 webhook. -/
theorem c4_witness :
    ((fun _ : Nat => (Except.ok 500 : Except Unit Int)) 0 = Except.ok 500) ∧
    send_message (fun _ => Except.ok 500) 3 = false :=
  ⟨rfl, c4_send_message_false (fun _ => Except.ok 500) rfl rfl rfl⟩

/-- C5.  For every filtered update list, `generate_summary` (with the real
analyzer pipeline, any model behaviour) returns a dict whose `total_updates`
equals the list length; the empty list yields the canned zero-update summary
(for EVERY analyzer function, i.e. without consulting the analyzer), whose
`total_updates` is 0. -/
theorem c5_total_updates :
    (∀ (loads : String → Option Json) (outcomes : Nat → Option String)
      (updates : List Update),
      ∃ r, generate_summary (analyzerResult loads outcomes) updates = .ok r ∧
        dictGet r "total_updates" = some (.num updates.length)) ∧
    (∀ analyzeFn : String → Json, generate_summary analyzeFn [] = .ok cannedZeroSummary) ∧
    dictGet cannedZeroSummary "total_updates" = some (.num 0) := by
  refine ⟨?_, fun a => rfl, rfl⟩
  intro loads outcomes updates
  cases updates with
  | nil => exact ⟨cannedZeroSummary, rfl, rfl⟩
  | cons u rest =>
    obtain ⟨fields, heq, _, _, _, _, _, _⟩ :=
      analyzerResult_shape loads outcomes (format_updates_for_analysis (u :: rest))
    refine ⟨.obj (dictSet "total_updates" (.num (u :: rest).length) fields), ?_, ?_⟩
    · unfold generate_summary
      rw [if_neg (by simp), heq]
      rfl
    · exact lookupField_dictSet_self _ _ _

/-- C6 (amended).  Every `generate_summary` result is a dict carrying
`summary`, `categories` and `total_updates`; the keys `key_insights`,
`threat_level` and `recommended_actions` are carried exactly when the update
list is non-empty (the canned zero-update summary omits them).  Values are
not validated: a model-supplied `threat_level` outside low/medium/high or a
non-dict `categories` is passed through. -/
theorem c6_summary_fields :
    (∀ (loads : String → Option Json) (outcomes : Nat → Option String)
      (updates : List Update),
      ∃ fields, generate_summary (analyzerResult loads outcomes) updates = .ok (.obj fields) ∧
        anyKeyB fields "summary" = true ∧
        anyKeyB fields "categories" = true ∧
        anyKeyB fields "total_updates" = true ∧
        anyKeyB fields "key_insights" = !updates.isEmpty ∧
        anyKeyB fields "threat_level" = !updates.isEmpty ∧
        anyKeyB fields "recommended_actions" = !updates.isEmpty) ∧
    (∀ analyzeFn : String → Json, generate_summary analyzeFn [] = .ok cannedZeroSummary) := by
  refine ⟨?_, fun a => rfl⟩
  intro loads outcomes updates
  cases updates with
  | nil =>
    exact ⟨[("summary", .str "No significant competitor updates found this week."),
      ("categories", threeEmptyCats), ("total_updates", .num 0)],
      rfl, rfl, rfl, rfl, rfl, rfl, rfl⟩
  | cons u rest =>
    obtain ⟨fields, heq, hs, hc, hk, ht, hr, _⟩ :=
      analyzerResult_shape loads outcomes (format_updates_for_analysis (u :: rest))
    refine ⟨dictSet "total_updates" (.num (u :: rest).length) fields, ?_, ?_, ?_, ?_, ?_, ?_, ?_⟩
    · unfold generate_summary
      rw [if_neg (by simp), heq]
      rfl
    · exact anyKeyB_dictSet_of _ _ _ _ hs
    · exact anyKeyB_dictSet_of _ _ _ _ hc
    · exact anyKeyB_dictSet_self _ _ _
    · simpa using anyKeyB_dictSet_of _ "key_insights" _ fields hk
    · simpa using anyKeyB_dictSet_of _ "threat_level" _ fields ht
    · simpa using anyKeyB_dictSet_of _ "recommended_actions" _ fields hr

/-- C6 counterexample.  The canned zero-update summary - a result of
`generate_summary` produced on every run with no recent updates - carries
none of `key_insights`, `threat_level`, `recommended_actions`, so it fails
the claimed full Summary data model. -/
theorem c6_counterexample :
    generate_summary (analyzerResult demoLoads (fun _ => none)) [] = .ok cannedZeroSummary ∧
    summaryModelCheckB cannedZeroSummary = false :=
  ⟨rfl, rfl⟩

/-- C7 (amended).  A response wrapped in a fence OPENED WITH EXACTLY
` ```json ` and closed with ` ``` ` is stripped before `json.loads`: parsing
the fenced text is parsing the inner serialization (then validated and
back-filled as usual).  The second conjunct shows the back-fill on a
representative parsed object: missing category sub-lists become empty lists,
`threat_level` defaults to `medium` and `recommended_actions` to `[]`.
Fences opened with plain ` ``` ` are NOT stripped (see the counterexample). -/
theorem c7_fence_stripping :
    (∀ (loads : String → Option Json) (s : String) (a : Json),
      loads (pyStrip s) = some a →
      parse_analysis_response loads ("```json" ++ s ++ "```") = processLoadedAnalysis a) ∧
    processLoadedAnalysis demoParsedObj = .ok demoBackfilledObj := by
  constructor
  · intro loads s a h
    unfold parse_analysis_response
    rw [cleanedResponseText_fenced, h]
  · rfl

/-- C7 witness: the fenced serialization of `demoSerializedObj`. -/
theorem c7_witness :
    demoLoads (pyStrip demoFencedInner) = some demoParsedObj ∧
    parse_analysis_response demoLoads ("```json" ++ demoFencedInner ++ "```")
      = processLoadedAnalysis demoParsedObj :=
  ⟨rfl, c7_fence_stripping.1 demoLoads demoFencedInner demoParsedObj rfl⟩

/-- C7 counterexample.  The same serialization wrapped in a plain ` ``` `
fence (a markdown code fence) is NOT stripped of its opening backticks, so
`json.loads` fails and the parser returns the salvage result instead of the
parsed object - the claim fails for this fence wrapping. -/
theorem c7_counterexample :
    parse_analysis_response demoLoads fencedPlainText
      = .ok (extract_partial_analysis fencedPlainText) ∧
    summaryTextOf (extract_partial_analysis fencedPlainText)
      = "Analysis completed but summary extraction failed." ∧
    parse_analysis_response demoLoads fencedPlainText ≠ .ok demoBackfilledObj := by
  refine ⟨rfl, rfl, ?_⟩
  intro h
  have h0 : (Except.ok (extract_partial_analysis fencedPlainText) : Except Unit Json)
      = .ok demoBackfilledObj := by
    rw [← h]
    rfl
  have h1 : extract_partial_analysis fencedPlainText = demoBackfilledObj :=
    Except.ok.inj h0
  have h2 := congrArg summaryTextOf h1
  have e1 : summaryTextOf (extract_partial_analysis fencedPlainText)
      = "Analysis completed but summary extraction failed." := rfl
  have e2 : summaryTextOf demoBackfilledObj = "All quiet" := rfl
  rw [e1, e2] at h2
  exact absurd h2 (by decide)

/-- C8 (amended).  On JSON-parse failure, `_parse_analysis_response` returns
`_extract_partial_analysis`: the salvage summary is the first stripped line
AMONG THE FIRST 10 LINES of the raw text that is over 50 characters and
mentions `update` or `competitor` (case-insensitively), truncated to 300
characters - with a fixed failure message when no such line occurs among the
first 10 - and all other structured fields are the empty defaults. -/
theorem c8_salvage :
    ∀ (loads : String → Option Json) (text : String),
      loads (cleanedResponseText text) = none →
      parse_analysis_response loads text = .ok (extract_partial_analysis text) ∧
      extract_partial_analysis text
        = .obj [("summary", .str (extract_summary_fallback text)),
                ("categories", threeEmptyCats),
                ("key_insights", .arr []),
                ("threat_level", .str "medium"),
                ("recommended_actions", .arr [])] ∧
      extract_summary_fallback text
        = (match (((pySplit text '\n').take 10).map pyStrip).find? summaryLineHit with
           | some l => pySliceTo l 300
           | none => "Analysis completed but summary extraction failed.") := by
  intro loads text h
  refine ⟨?_, rfl, ?_⟩
  · unfold parse_analysis_response
    rw [h]
  · unfold extract_summary_fallback
    rw [firstSummaryLine_eq_find]
    cases hf : (((pySplit text '\n').take 10).map pyStrip).find? summaryLineHit with
    | none => simp [hf]
    | some l => simp [hf]

/-- C8 witness: a response that is not valid JSON. -/
theorem c8_witness :
    demoLoads (cleanedResponseText "hello") = none ∧
    parse_analysis_response demoLoads "hello" = .ok (extract_partial_analysis "hello") :=
  ⟨rfl, (c8_salvage demoLoads "hello" rfl).1⟩

/-- C8 counterexample.  A raw text whose first qualifying line is its 11th
line: the claim (first qualifying line of the whole text) predicts that line,
but the code scans only `lines[:10]` and returns the fixed failure message. -/
theorem c8_counterexample :
    parse_analysis_response demoLoads tenShortLinesText
      = .ok (extract_partial_analysis tenShortLinesText) ∧
    summaryTextOf (extract_partial_analysis tenShortLinesText)
      = "Analysis completed but summary extraction failed." ∧
    claimedSalvageSummary tenShortLinesText
      = some "This competitor update announcement line is certainly longer than fifty characters." ∧
    ("Analysis completed but summary extraction failed." : String)
      ≠ "This competitor update announcement line is certainly longer than fifty characters." :=
  ⟨rfl, rfl, rfl, by decide⟩

/-- C9 (amended).  Whenever the Slack message formats successfully, the two
notifier calls are independent: `send_message` catches every exception
internally and only ever returns a boolean (it is total in the model), so
BOTH `send_message` and `update_page` are invoked, whatever the webhook
outcomes (e.g. three 500s or three raised exceptions) and whatever the Notion
API outcomes - a failed or exhausted notifier never prevents the other call.
The formatting proviso is needed because both steps share one `try` block:
see the counterexample. -/
theorem c9_notifiers_independent :
    ∀ (nowStamp nowDate nowIso : String) (webhook notionApi : Nat → Except Unit Int)
      (summary : Json),
      isOkB (format_slack_message nowStamp summary) = true →
      (send_notifications nowStamp nowDate nowIso webhook notionApi summary).slackInvoked
          = true ∧
      (send_notifications nowStamp nowDate nowIso webhook notionApi summary).notionInvoked
          = true := by
  intro nowStamp nowDate nowIso webhook notionApi summary h
  cases hf : format_slack_message nowStamp summary with
  | error e => rw [hf] at h; simp [isOkB] at h
  | ok msg =>
    have hobj : ∃ fields, summary = .obj fields := by
      unfold format_slack_message at hf
      cases summary with
      | obj fields => exact ⟨fields, rfl⟩
      | null => simp [pyDictGetD] at hf
      | bool b => simp [pyDictGetD] at hf
      | num n => simp [pyDictGetD] at hf
      | str s => simp [pyDictGetD] at hf
      | arr xs => simp [pyDictGetD] at hf
    obtain ⟨fields, rfl⟩ := hobj
    cases hn : format_notion_content nowDate nowIso (.obj fields) with
    | error e =>
      have := format_notion_content_ok nowDate nowIso fields
      rw [hn] at this
      simp [isOkB] at this
    | ok c =>
      unfold send_notifications
      rw [hf, hn]
      exact ⟨rfl, rfl⟩

/-- C9 witness: a well-formed summary with failing webhook and Notion API. -/
theorem c9_witness :
    isOkB (format_slack_message "t" demoSummaryJson) = true ∧
    (send_notifications "t" "d" "i" (fun _ => Except.error ()) (fun _ => Except.error ())
        demoSummaryJson).slackInvoked = true ∧
    (send_notifications "t" "d" "i" (fun _ => Except.error ()) (fun _ => Except.error ())
        demoSummaryJson).notionInvoked = true :=
  ⟨rfl, c9_notifiers_independent "t" "d" "i" _ _ demoSummaryJson rfl⟩

/-- C10.  The analysis prompt depends only on the first 8000 characters of
the formatted update text (so content beyond 8000 characters never reaches
the model: appending anything to an 8000-character text leaves the prompt
unchanged), while the fallback summary cites the `Source:` line count of the
FULL text - appending one more `Source:` line anywhere past any length
increases the cited count by one. -/
theorem c10_prompt_truncation :
    (∀ t u : String, pySliceTo t 8000 = pySliceTo u 8000 →
      build_analysis_prompt t = build_analysis_prompt u) ∧
    (∀ t x : String, 8000 ≤ pyLen t →
      build_analysis_prompt (t ++ x) = build_analysis_prompt t) ∧
    (∀ t : String, dictGet (get_fallback_analysis t) "summary"
      = some (.str (fallbackSummaryText (sourceLineCount t)))) ∧
    (∀ t : String, sourceLineCount (t ++ "\nSource: extra") = sourceLineCount t + 1) := by
  refine ⟨?_, ?_, fun t => rfl, sourceLineCount_append_line⟩
  · intro t u h
    unfold build_analysis_prompt
    rw [h]
  · intro t x h
    unfold build_analysis_prompt
    congr 2
    apply String.ext
    simp only [pySliceTo, String.data_append]
    exact List.take_append_of_le_length h

/-- C10 witness: an 8000-character text with content appended past the
truncation point. -/
theorem c10_witness :
    (pySliceTo "" 8000 = pySliceTo "" 8000 ∧
      build_analysis_prompt "" = build_analysis_prompt "") ∧
    (8000 ≤ pyLen (⟨List.replicate 8000 'x'⟩ : String) ∧
      build_analysis_prompt ((⟨List.replicate 8000 'x'⟩ : String) ++ "\nSource: late")
        = build_analysis_prompt ⟨List.replicate 8000 'x'⟩) ∧
    sourceLineCount ("hey" ++ "\nSource: extra") = sourceLineCount "hey" + 1 :=
  have h8 : pyLen (⟨List.replicate 8000 'x'⟩ : String) = 8000 := List.length_replicate 8000 'x'
  ⟨⟨rfl, c10_prompt_truncation.1 "" "" rfl⟩,
   ⟨Nat.le_of_eq h8.symm, c10_prompt_truncation.2.1 _ "\nSource: late" (Nat.le_of_eq h8.symm)⟩,
   c10_prompt_truncation.2.2.2 "hey"⟩

/-- C9 counterexample.  A summary actually produced by `generate_summary`
when the model returns the pathological response (its `categories` value is a
string) makes the chat-notifier step raise while formatting the Slack
message; the shared `try` block then skips `update_page` even though the
Notion API is healthy, so the notifiers are not unconditionally independent. -/
theorem c9_counterexample :
    generate_summary (analyzerResult demoLoads (fun _ => some pathologicalCategoriesText)) [u1d]
      = .ok pathologicalSummary ∧
    (send_notifications "t" "d" "i" (fun _ => Except.ok 200) (fun _ => Except.ok 200)
        pathologicalSummary).slackInvoked = false ∧
    (send_notifications "t" "d" "i" (fun _ => Except.ok 200) (fun _ => Except.ok 200)
        pathologicalSummary).notionInvoked = false :=
  ⟨rfl, rfl, rfl⟩
